import Mathlib

/-!
# Verification of the rust_blaster simulation core

A shallow embedding, in Lean 4, of the deterministic per-frame simulation of
the `rust_blaster` first-person shooter (src/rust_blaster/src/main.rs), together
with theorems settling the specification's claims about it.

Modelling conventions:
* `f32`/`f64` values are modelled as exact rationals (`ℚ`).  All the arithmetic
  the claims are about (armor absorption, explosion falloff, combo bonuses,
  fire-rate intervals, pickup caps) is exact decimal arithmetic.
* Rust's saturating float-to-integer casts (`as i32`, `as usize`) are modelled
  explicitly: truncation toward zero, with negatives saturating to 0 for
  `usize`.
* `Vec3::length` is an irrational square root in general.  Where the source
  only *compares* a length against a constant (`dist < 2.0`,
  `dist < radius`, `dist < 1.5`) we use the equivalent comparison of the
  squared length against the squared constant (`sqrt s < c ↔ s < c²` for
  `s ≥ 0, c > 0`).  Where the length's *value* enters the arithmetic
  (explosion falloff) the function is a parameter `len`, and the theorems
  hold for every choice of `len`.
* Randomised cosmetic data (particle velocities/colours, pickup bob phase)
  is irrelevant to every claim; particle bursts are passed as explicit list
  parameters where the source draws them from the PRNG.
-/

set_option maxRecDepth 4000

/-- 3D vector over ℚ (models macroquad's `Vec3`). -/
structure Vec3Q where
  x : ℚ
  y : ℚ
  z : ℚ
deriving DecidableEq, Repr

/-- Componentwise vector subtraction, `a - b`. -/
def vsub (a b : Vec3Q) : Vec3Q := ⟨a.x - b.x, a.y - b.y, a.z - b.z⟩

/-- RGBA colour (models macroquad's `Color`). -/
structure ColorQ where
  r : ℚ
  g : ℚ
  b : ℚ
  a : ℚ
deriving DecidableEq, Repr

-- Constants (main.rs 71-78)
def PLAYER_SPEED : ℚ := 8
def PLAYER_HEIGHT : ℚ := 17/10
def PLAYER_RADIUS : ℚ := 3/10
def MAX_HEALTH : ℚ := 100
def CELL_SIZE : ℚ := 4

-- ============================================================================
-- Weapons (main.rs 93-145)
-- ============================================================================

inductive WeaponType where
  | Pistol
  | Shotgun
  | MachineGun
  | Rocket
deriving DecidableEq, Repr

structure Weapon where
  wtype : WeaponType
  damage : ℚ
  fire_rate : ℚ
  spread : ℚ
  ammo : ℤ
  max_ammo : ℤ
  pellets : ℤ
  explosive : Bool
  last_shot : ℚ
deriving DecidableEq, Repr

namespace Weapon

def pistol : Weapon :=
  { wtype := .Pistol, damage := 25, fire_rate := 3, spread := 2/100,
    ammo := -1, max_ammo := -1, pellets := 1, explosive := false, last_shot := 0 }

def shotgun : Weapon :=
  { wtype := .Shotgun, damage := 12, fire_rate := 12/10, spread := 12/100,
    ammo := 24, max_ammo := 24, pellets := 8, explosive := false, last_shot := 0 }

def machinegun : Weapon :=
  { wtype := .MachineGun, damage := 10, fire_rate := 12, spread := 6/100,
    ammo := 200, max_ammo := 200, pellets := 1, explosive := false, last_shot := 0 }

def rocket : Weapon :=
  { wtype := .Rocket, damage := 250, fire_rate := 1/2, spread := 0,
    ammo := 20, max_ammo := 20, pellets := 1, explosive := true, last_shot := 0 }

/-- `Weapon::can_fire` (main.rs 130-132):
`time - self.last_shot >= 1.0 / self.fire_rate && (self.ammo > 0 || self.ammo < 0)`. -/
def can_fire (w : Weapon) (time : ℚ) : Bool :=
  decide (time - w.last_shot ≥ 1 / w.fire_rate) && (decide (w.ammo > 0) || decide (w.ammo < 0))

/-- `Weapon::fire` (main.rs 133-136): records the shot time, and decrements
ammo only when it is positive. -/
def fire (w : Weapon) (time : ℚ) : Weapon :=
  { w with last_shot := time, ammo := if w.ammo > 0 then w.ammo - 1 else w.ammo }

/-- The firing gate of `try_shoot` (main.rs 831-834) restricted to the weapon:
fire if and only if `can_fire`; returns the new weapon state and whether the
shot was honored. -/
def tryFire (w : Weapon) (time : ℚ) : Weapon × Bool :=
  if w.can_fire time then (w.fire time, true) else (w, false)

end Weapon

-- ============================================================================
-- Enemies (main.rs 186-228)
-- ============================================================================

inductive EnemyType where
  | Grunt
  | Heavy
  | Demon
deriving DecidableEq, Repr

structure Enemy where
  pos : Vec3Q
  health : ℚ
  max_health : ℚ
  etype : EnemyType
  speed : ℚ
  damage : ℚ
  attack_cd : ℚ
  last_attack : ℚ
  dead : Bool
  death_time : ℚ
deriving DecidableEq, Repr

namespace Enemy

def grunt (x z : ℚ) : Enemy :=
  { pos := ⟨x, 1, z⟩, health := 50, max_health := 50, etype := .Grunt,
    speed := 35/10, damage := 10, attack_cd := 1, last_attack := 0,
    dead := false, death_time := 0 }

def heavy (x z : ℚ) : Enemy :=
  { pos := ⟨x, 15/10, z⟩, health := 150, max_health := 150, etype := .Heavy,
    speed := 18/10, damage := 25, attack_cd := 15/10, last_attack := 0,
    dead := false, death_time := 0 }

def demon (x z : ℚ) : Enemy :=
  { pos := ⟨x, 12/10, z⟩, health := 70, max_health := 70, etype := .Demon,
    speed := 6, damage := 15, attack_cd := 6/10, last_attack := 0,
    dead := false, death_time := 0 }

/-- `Enemy::size` (main.rs 222-224). -/
def size (e : Enemy) : ℚ :=
  match e.etype with
  | .Grunt => 8/10
  | .Heavy => 12/10
  | .Demon => 9/10

/-- `Enemy::points` (main.rs 225-227). -/
def points (e : Enemy) : ℤ :=
  match e.etype with
  | .Grunt => 100
  | .Heavy => 300
  | .Demon => 200

end Enemy

-- ============================================================================
-- Projectiles, particles, pickups (main.rs 230-291)
-- ============================================================================

structure Projectile where
  pos : Vec3Q
  vel : Vec3Q
  damage : ℚ
  explosive : Bool
deriving DecidableEq, Repr

structure Particle where
  pos : Vec3Q
  vel : Vec3Q
  color : ColorQ
  life : ℚ
  max_life : ℚ
  size : ℚ
deriving DecidableEq, Repr

inductive PickupType where
  | Health
  | Ammo
  | SpeedBoost
  | DamageBoost
  | Armor
deriving DecidableEq, Repr

/-- A pickup (main.rs 255-260).  The `bob_offset` field is a random cosmetic
animation phase with no gameplay effect and is omitted. -/
structure Pickup where
  pos : Vec3Q
  pickup_type : PickupType
  collected : Bool
deriving DecidableEq, Repr

namespace Pickup

def new (x z : ℚ) (t : PickupType) : Pickup :=
  { pos := ⟨x, 1/2, z⟩, pickup_type := t, collected := false }

/-- `Pickup::name` (main.rs 282-290). -/
def name (p : Pickup) : String :=
  match p.pickup_type with
  | .Health => "HEALTH"
  | .Ammo => "AMMO"
  | .SpeedBoost => "SPEED BOOST"
  | .DamageBoost => "DAMAGE BOOST"
  | .Armor => "ARMOR"

end Pickup

-- ============================================================================
-- Saturating float-to-integer casts
-- ============================================================================

/-- Rust `f32 as i32`: truncation toward zero (saturation at the i32 bounds is
unreachable for the coordinates in play and not modelled). -/
def ratToI32 (q : ℚ) : ℤ :=
  if q < 0 then -((-q).floor) else q.floor

/-- Rust `f32 as usize`: truncation toward zero, saturating — every negative
value casts to 0. -/
def ratToUsize (q : ℚ) : ℕ :=
  if q < 0 then 0 else q.floor.toNat

-- ============================================================================
-- Level (main.rs 293-514)
-- ============================================================================

structure Level where
  width : ℕ
  height : ℕ
  grid : List (List Char)
  floor_heights : List (List ℚ)
  name : String
deriving DecidableEq, Repr

namespace Level

/-- `Level::uniform_heights` (main.rs 303-305): `vec![vec![h; width]; height]`. -/
def uniform_heights (width height : ℕ) (h : ℚ) : List (List ℚ) :=
  List.replicate height (List.replicate width h)

/-- One Rust assignment `fh[y][x] = v` on a row-major height map. -/
def setCell (fh : List (List ℚ)) (y x : ℕ) (v : ℚ) : List (List ℚ) :=
  fh.set y ((fh.getD y []).set x v)

/-- A Rust nested loop `for y in ys { for x in xs { fh[y][x] = v } }`. -/
def setRect (fh : List (List ℚ)) (ys xs : List ℕ) (v : ℚ) : List (List ℚ) :=
  ys.foldl (fun f y => xs.foldl (fun g x => setCell g y x v) f) fh

def level_1 : Level :=
  { width := 20, height := 20,
    grid := [
      "####################",
      "#.G..........+.....#",
      "#..................#",
      "#......G.....G..A..#",
      "#..................#",
      "#...#......#.......#",
      "#...#..+...#...G...#",
      "#...#......#.......#",
      "#..........A.......#",
      "#......H...........#",
      "#..................#",
      "#.........G....+...#",
      "#...#......#.......#",
      "#...#......#.......#",
      "#...#..D...#.......#",
      "#..................#",
      "#..A...............#",
      "#.........X........#",
      "#P.................#",
      "####################"].map String.toList,
    floor_heights := uniform_heights 20 20 0,
    name := "THE BEGINNING" }

def level_2 : Level :=
  { width := 26, height := 20,
    grid := [
      "##########################",
      "#.........+..............#",
      "#..G..G..G..G..G..G..G...#",
      "#........................#",
      "#..A.................A...#",
      "#.....H.......H.......D..#",
      "#........................#",
      "#...........S............#",
      "#........................#",
      "#..+.................+...#",
      "#..D..D..D..D..D..D......#",
      "#........................#",
      "#..A.................A...#",
      "#.....H.......H.......H..#",
      "#........................#",
      "#...........B............#",
      "#........................#",
      "#.......+.....X....+.....#",
      "#P.......................#",
      "##########################"].map String.toList,
    floor_heights := uniform_heights 26 20 0,
    name := "DEMON'S LAIR" }

def level_3 : Level :=
  { width := 30, height := 21,
    grid := [
      "##############################",
      "#..+.........R..........+....#",
      "#..H..H..H..H..H..H..H..H....#",
      "#............................#",
      "#..A....................A....#",
      "#............................#",
      "#..G.G.G.G.G.G.G.G.G.G.G.G...#",
      "#............................#",
      "#..+........S...........+....#",
      "#............................#",
      "#..D..D..D..D..D..D..D..D....#",
      "#............................#",
      "#..A........B...........A....#",
      "#............................#",
      "#..H.H.H.H.H.H.H.H.H.H.H.H...#",
      "#............................#",
      "#..+....................+....#",
      "#............................#",
      "#..............X.............#",
      "#P...........................#",
      "##############################"].map String.toList,
    floor_heights := uniform_heights 30 21 0,
    name := "THE GAUNTLET" }

/-- Height map of level 4 (main.rs 415-437): raised platforms at 1.5 and
ramps at 0.75. -/
def level_4_heights : List (List ℚ) :=
  let fh := uniform_heights 36 21 0
  let fh := setRect fh (List.range' 4 4) (List.range' 3 6) (15/10)
  let fh := setRect fh (List.range' 4 4) (List.range' 10 6) (15/10)
  let fh := setRect fh (List.range' 4 4) (List.range' 17 6) (15/10)
  let fh := setRect fh (List.range' 4 4) (List.range' 24 6) (15/10)
  let fh := setRect fh (List.range' 11 4) (List.range' 3 6) (15/10)
  let fh := setRect fh (List.range' 11 4) (List.range' 10 6) (15/10)
  let fh := setRect fh (List.range' 11 4) (List.range' 17 6) (15/10)
  let fh := setRect fh (List.range' 11 4) (List.range' 24 6) (15/10)
  let fh := setRect fh (List.range' 4 4) [9] (75/100)
  setRect fh (List.range' 11 4) [9] (75/100)

def level_4 : Level :=
  { width := 36, height := 21,
    grid := [
      "####################################",
      "#..................................#",
      "#..G..G..+..G..G..A..G..G..+..G.G..#",
      "#..................................#",
      "#..###..###..###..###..###..###....#",
      "#..#.+..#.A..#.+..#.A..#.+..#......#",
      "#..#....#....#....#....#....#......#",
      "#..###..###..###..###..###..###....#",
      "#..................................#",
      "#..H..H..H..H..H..H..H..H..S..B....#",
      "#..................................#",
      "#..###..###..###..###..###..###....#",
      "#..#....#....#....#....#....#......#",
      "#..#.R..#.+..#.A..#.+..#.A..#......#",
      "#..###..###..###..###..###..###....#",
      "#..................................#",
      "#..D..D..D..D..D..D..D..D..+..A....#",
      "#..................................#",
      "#................X.................#",
      "#P.................................#",
      "####################################"].map String.toList,
    floor_heights := level_4_heights,
    name := "THE MAZE OF CLARKSON" }

/-- Height map of level 5 (main.rs 467-476): terraced arena. -/
def level_5_heights : List (List ℚ) :=
  let fh := uniform_heights 40 21 0
  let fh := setRect fh (List.range' 2 2) (List.range' 1 38) 3
  let fh := setRect fh (List.range' 4 2) (List.range' 1 38) (25/10)
  let fh := setRect fh (List.range' 6 2) (List.range' 1 38) 2
  let fh := setRect fh (List.range' 8 2) (List.range' 1 38) (15/10)
  let fh := setRect fh (List.range' 10 2) (List.range' 1 38) 1
  setRect fh (List.range' 12 2) (List.range' 1 38) (1/2)

def level_5 : Level :=
  { width := 40, height := 21,
    grid := [
      "########################################",
      "#......................................#",
      "#..H..H..H..H..H..H..H..H..H..H..H..H..#",
      "#......................................#",
      "#..+..A..+..A..+..A..+..A..+..A..+..A..#",
      "#......................................#",
      "#..D..D..D..D..D..D..D..D..D..D..D..D..#",
      "#......................................#",
      "#..R..S..B..R..S..B..R..S..B..R..S..B..#",
      "#......................................#",
      "#..G..G..G..G..G..G..G..G..G..G..G..G..#",
      "#......................................#",
      "#..+..A..+..A..+..A..+..A..+..A..+..A..#",
      "#......................................#",
      "#..H..H..H..H..H..H..H..H..H..H..H..H..#",
      "#......................................#",
      "#..D..D..D..D..D..D..D..D..D..D..D..D..#",
      "#......................................#",
      "#..................X...................#",
      "#P.....................................#",
      "########################################"].map String.toList,
    floor_heights := level_5_heights,
    name := "CLARKSON'S FINAL STAND" }

/-- `Level::is_wall` (main.rs 481-484): out of bounds is solid, otherwise the
grid cell is compared with the wall character. -/
def is_wall (lv : Level) (x y : ℤ) : Bool :=
  if x < 0 || y < 0 || x ≥ (lv.width : ℤ) || y ≥ (lv.height : ℤ) then true
  else ((lv.grid.getD y.toNat []).getD x.toNat ' ') == '#'

/-- `Level::get_floor_height` (main.rs 486-494).  `(x / CELL_SIZE) as usize`
saturates negatives to 0. -/
def get_floor_height (lv : Level) (x z : ℚ) : ℚ :=
  let gx := ratToUsize (x / CELL_SIZE)
  let gz := ratToUsize (z / CELL_SIZE)
  if gz < lv.height ∧ gx < lv.width then
    (lv.floor_heights.getD gz []).getD gx 0
  else
    0

/-- `Level::check_collision` (main.rs 496-513): circle versus the axis-aligned
square footprint of every wall cell in the 3×3 neighborhood of the queried
cell. -/
def check_collision (lv : Level) (x z radius : ℚ) : Bool :=
  let gx := ratToI32 (x / CELL_SIZE)
  let gz := ratToI32 (z / CELL_SIZE)
  ([-1, 0, 1] : List ℤ).any fun dy =>
    ([-1, 0, 1] : List ℤ).any fun dx =>
      is_wall lv (gx + dx) (gz + dy) &&
        (let wx := ((gx + dx : ℤ) : ℚ) * CELL_SIZE + CELL_SIZE / 2
         let wz := ((gz + dy : ℤ) : ℚ) * CELL_SIZE + CELL_SIZE / 2
         let half := CELL_SIZE / 2
         let cx := min (max x (wx - half)) (wx + half)
         let cz := min (max z (wz - half)) (wz + half)
         decide ((x - cx)^2 + (z - cz)^2 < radius^2))

end Level

-- ============================================================================
-- Player and world state (main.rs 147-184, 520-648)
-- ============================================================================

inductive GameState where
  | Menu
  | Playing
  | Paused
  | Dead
  | Victory
deriving DecidableEq, Repr

structure Player where
  pos : Vec3Q
  yaw : ℚ
  pitch : ℚ
  health : ℚ
  armor : ℚ
  weapons : List Weapon
  current_weapon : ℕ
  score : ℤ
  damage_flash : ℚ
  speed_boost : ℚ
  damage_boost : ℚ
  kills : ℤ
  pickup_msg : String
  pickup_msg_time : ℚ
  is_aiming : Bool
  aim_transition : ℚ
deriving DecidableEq, Repr

namespace Player

/-- `Player::new` (main.rs 166-177). -/
def new (x z : ℚ) : Player :=
  { pos := ⟨x, PLAYER_HEIGHT, z⟩,
    yaw := 0, pitch := 0, health := MAX_HEALTH, armor := 0,
    weapons := [Weapon.pistol, Weapon.shotgun, Weapon.machinegun, Weapon.rocket],
    current_weapon := 0, score := 0, damage_flash := 0,
    speed_boost := 0, damage_boost := 0, kills := 0,
    pickup_msg := "", pickup_msg_time := 0,
    is_aiming := false, aim_transition := 0 }

end Player

/-- The mutable game world (main.rs 520-536).  The enemy texture handle is a
rendering resource and is omitted. -/
structure World where
  player : Player
  enemies : List Enemy
  projectiles : List Projectile
  particles : List Particle
  pickups : List Pickup
  level : Level
  current_level : ℕ
  state : GameState
  screen_shake : ℚ
  muzzle_flash : ℚ
  hit_marker : ℚ
  combo : ℤ
  combo_timer : ℚ
  total_kills : ℤ
deriving DecidableEq, Repr

namespace World

/-- `World::find_char` (main.rs 564-573): the center of the first cell (row
major) holding the character, with a fallback of `(CELL_SIZE*2, CELL_SIZE*2)`. -/
def find_char (lv : Level) (c : Char) : ℚ × ℚ :=
  match lv.grid.enum.findSome? (fun yr =>
      (yr.2.enum.find? (fun xc => xc.2 == c)).map (fun xc =>
        ((xc.1 : ℚ) * CELL_SIZE + CELL_SIZE / 2,
         (yr.1 : ℚ) * CELL_SIZE + CELL_SIZE / 2))) with
  | some p => p
  | none => (CELL_SIZE * 2, CELL_SIZE * 2)

/-- `World::spawn_enemies` (main.rs 575-589): one enemy per `G`/`H`/`D` marker,
at the cell center, in row-major order. -/
def spawn_enemies (lv : Level) : List Enemy :=
  lv.grid.enum.flatMap fun yr =>
    yr.2.enum.flatMap fun xc =>
      let wx := (xc.1 : ℚ) * CELL_SIZE + CELL_SIZE / 2
      let wz := (yr.1 : ℚ) * CELL_SIZE + CELL_SIZE / 2
      if xc.2 == 'G' then [Enemy.grunt wx wz]
      else if xc.2 == 'H' then [Enemy.heavy wx wz]
      else if xc.2 == 'D' then [Enemy.demon wx wz]
      else []

/-- `World::spawn_pickups` (main.rs 591-607). -/
def spawn_pickups (lv : Level) : List Pickup :=
  lv.grid.enum.flatMap fun yr =>
    yr.2.enum.flatMap fun xc =>
      let wx := (xc.1 : ℚ) * CELL_SIZE + CELL_SIZE / 2
      let wz := (yr.1 : ℚ) * CELL_SIZE + CELL_SIZE / 2
      if xc.2 == '+' then [Pickup.new wx wz .Health]
      else if xc.2 == 'A' then [Pickup.new wx wz .Ammo]
      else if xc.2 == 'S' then [Pickup.new wx wz .SpeedBoost]
      else if xc.2 == 'B' then [Pickup.new wx wz .DamageBoost]
      else if xc.2 == 'R' then [Pickup.new wx wz .Armor]
      else []

/-- The level table of `World::load_level` (main.rs 610-617). -/
def levelOf (num : ℕ) : Level :=
  match num with
  | 1 => Level.level_1
  | 2 => Level.level_2
  | 3 => Level.level_3
  | 4 => Level.level_4
  | 5 => Level.level_5
  | _ => Level.level_1

/-- `World::load_level` (main.rs 609-627): installs the level, repositions the
player at the `P` marker with yaw/pitch 0, respawns enemies and pickups, and
clears projectiles and particles.  Every other field is untouched. -/
def load_level (w : World) (num : ℕ) : World :=
  let lv := levelOf num
  let pxz := find_char lv 'P'
  { w with
    level := lv,
    current_level := num,
    player := { w.player with pos := ⟨pxz.1, PLAYER_HEIGHT, pxz.2⟩, yaw := 0, pitch := 0 },
    enemies := spawn_enemies lv,
    pickups := spawn_pickups lv,
    projectiles := [],
    particles := [] }

/-- `World::alive_enemies` (main.rs 645-647). -/
def alive_enemies (w : World) : ℕ :=
  (w.enemies.filter (fun e => !e.dead)).length

end World

-- ============================================================================
-- Movement resolution (main.rs 784-792 for the player, 950-958 for enemies)
-- ============================================================================

/-- The per-axis movement resolution shared by `update_player` (main.rs
784-792, radius `PLAYER_RADIUS`) and `update_enemies` (main.rs 950-958,
radius 0.5): candidate X is tested and applied first, then candidate Z is
tested against the (possibly updated) X. -/
def moveEntity (lv : Level) (x z dx dz radius : ℚ) : ℚ × ℚ :=
  let new_x := x + dx
  let new_z := z + dz
  let x1 := if Level.check_collision lv new_x z radius then x else new_x
  let z1 := if Level.check_collision lv x1 new_z radius then z else new_z
  (x1, z1)

-- ============================================================================
-- Enemy attack and armor absorption (main.rs 965-984)
-- ============================================================================

/-- Squared horizontal distance between two points; the source compares
`to_player.length() < 2.0` on a vector with zeroed Y, which is equivalent to
this squared length being `< 4`. -/
def horizDistSq (a b : Vec3Q) : ℚ :=
  (a.x - b.x)^2 + (a.z - b.z)^2

/-- The attack fragment of `update_enemies` (main.rs 965-984) for one living
enemy: if the horizontal distance to the player is below 2.0 and the attack
cooldown has elapsed, the attack lands; armor absorbs up to its remaining
value, only 70% of the absorbed amount reduces the health damage, and health
is floored at 0.  (The source also sets `screen_shake`, a rendering feedback
scalar carried on the World; it is applied by the world-level wrapper.)
Returns the updated enemy and player. -/
def enemyAttack (e : Enemy) (p : Player) (time : ℚ) : Enemy × Player :=
  if e.dead then (e, p)
  else if horizDistSq p.pos e.pos < 4 ∧ time - e.last_attack > e.attack_cd then
    let e1 : Enemy := { e with last_attack := time }
    let armorAbsorbed : ℚ × ℚ :=
      if p.armor > 0 then
        let armor_absorb := min e.damage p.armor
        (p.armor - armor_absorb, e.damage - armor_absorb * (7/10))
      else (p.armor, e.damage)
    (e1, { p with armor := armorAbsorbed.1,
                  health := max (p.health - armorAbsorbed.2) 0,
                  damage_flash := 1/2 })
  else (e, p)

-- ============================================================================
-- Hit-scan kill bookkeeping (main.rs 868-935) and the combo timer (681-685)
-- ============================================================================

/-- The damage-application and kill-bookkeeping tail of `raycast_shot`
(main.rs 905-929), given the index of the enemy the ray march hit (the march
only tests living enemies).  On a kill: the combo counter is incremented
first, the bonus is `50 ×` the incremented counter, the combo decay timer is
reset to 2 seconds, and both kill counters advance.  Particle bursts are
cosmetic and omitted. -/
def applyRaycastHit (w : World) (idx : ℕ) (damage : ℚ) (now : ℚ) : World :=
  match w.enemies.get? idx with
  | none => w
  | some e =>
    let e1 : Enemy := { e with health := e.health - damage }
    if e1.health ≤ 0 then
      let e2 : Enemy := { e1 with dead := true, death_time := now }
      let combo1 := w.combo + 1
      { w with
        enemies := w.enemies.set idx e2,
        hit_marker := 1,
        combo := combo1,
        combo_timer := 2,
        total_kills := w.total_kills + 1,
        player := { w.player with
          score := w.player.score + e.points + combo1 * 50,
          kills := w.player.kills + 1 } }
    else
      { w with enemies := w.enemies.set idx e1, hit_marker := 1 }

/-- The per-frame combo decay of `update` (main.rs 681-685): the timer loses
`dt`, and when it drops to 0 or below the combo counter resets to 0. -/
def comboFrame (combo : ℤ) (timer dt : ℚ) : ℤ × ℚ :=
  let t := timer - dt
  (if t ≤ 0 then 0 else combo, t)

/-- Iterated `comboFrame` over the frame times `dts` elapsing between kills. -/
def comboDecayList (combo : ℤ) (timer : ℚ) : List ℚ → ℤ × ℚ
  | [] => (combo, timer)
  | dt :: rest =>
    let ct := comboFrame combo timer dt
    comboDecayList ct.1 ct.2 rest

/-- One frame of combo decay applied to the world, as in `update`
(main.rs 681-685). -/
def comboTick (w : World) (dt : ℚ) : World :=
  let ct := comboFrame w.combo w.combo_timer dt
  { w with combo := ct.1, combo_timer := ct.2 }


-- ============================================================================
-- Explosions (main.rs 988-1079)
-- ============================================================================

/-- Splash damage to one enemy inside `explode` (main.rs 1057-1070), with the
Euclidean vector length abstracted as `len`: a living enemy within the fixed
10-unit radius loses `damage × (1 − dist/10)` health; if that drops its health
to 0 or below it is marked dead and stamped with the current time. -/
def explodeEnemy (len : Vec3Q → ℚ) (pos : Vec3Q) (damage now : ℚ) (e : Enemy) : Enemy :=
  if e.dead then e
  else
    let dist := len (vsub pos e.pos)
    if dist < 10 then
      let h := e.health - damage * (1 - dist / 10)
      if h ≤ 0 then { e with health := h, dead := true, death_time := now }
      else { e with health := h }
    else e

/-- Whether the explosion at `pos` with base `damage` kills the (living)
enemy `e`: within radius and remaining health dropping to 0 or below. -/
def explodeKills (len : Vec3Q → ℚ) (pos : Vec3Q) (damage : ℚ) (e : Enemy) : Bool :=
  !e.dead &&
    (let dist := len (vsub pos e.pos)
     decide (dist < 10) && decide (e.health - damage * (1 - dist / 10) ≤ 0))

/-- `explode` (main.rs 1015-1079).  `len` abstracts `Vec3::length`; `fx` is
the cosmetic 180-particle burst the source draws from the PRNG.  Every living
enemy within the 10-unit radius takes linear-falloff damage; each enemy killed
this way adds exactly its flat point value to the score (no combo interaction);
the player within the radius takes the same falloff damage scaled by 0.3,
floored at 0. -/
def explode (len : Vec3Q → ℚ) (fx : List Particle) (w : World) (pos : Vec3Q)
    (damage now : ℚ) : World :=
  let radius : ℚ := 10
  let enemies1 := w.enemies.map (explodeEnemy len pos damage now)
  let scoreAdd := (w.enemies.map (fun e =>
    if explodeKills len pos damage e then e.points else 0)).sum
  let player_dist := len (vsub pos w.player.pos)
  let p1 := { w.player with score := w.player.score + scoreAdd }
  let p2 :=
    if player_dist < radius then
      let falloff := 1 - player_dist / radius
      { p1 with health := max (p1.health - damage * falloff * (3/10)) 0,
                damage_flash := 3/10 }
    else p1
  { w with screen_shake := 8/10,
           particles := w.particles ++ fx,
           enemies := enemies1,
           player := p2 }

-- ============================================================================
-- Pickups (main.rs 1103-1160)
-- ============================================================================

/-- The per-pickup body of the collection loop in `update_pickups` (main.rs
1115-1154).  An already-collected pickup is skipped unconditionally.  An
uncollected pickup within 1.5 units of the player (the source compares
`sqrt(dx²+dz²) < 1.5`, equivalently `dx²+dz² < 9/4`) is flagged collected, its
type-specific effect applies, and a flat 50 score is awarded.  The cosmetic
particle burst is omitted. -/
def pickupStep (p : Player) (pk : Pickup) : Player × Pickup :=
  if pk.collected then (p, pk)
  else
    let dx := p.pos.x - pk.pos.x
    let dz := p.pos.z - pk.pos.z
    if dx * dx + dz * dz < 9/4 then
      let pk1 : Pickup := { pk with collected := true }
      let p1 : Player := { p with pickup_msg := "+" ++ pk.name, pickup_msg_time := 2 }
      let p2 : Player :=
        match pk.pickup_type with
        | .Health => { p1 with health := min (p1.health + 25) MAX_HEALTH }
        | .Ammo =>
          { p1 with weapons := p1.weapons.map (fun wp =>
              if wp.max_ammo > 0 then
                { wp with ammo := min (wp.ammo + wp.max_ammo / 2) wp.max_ammo }
              else wp) }
        | .SpeedBoost => { p1 with speed_boost := 10 }
        | .DamageBoost => { p1 with damage_boost := 10 }
        | .Armor => { p1 with armor := min (p1.armor + 50) 100 }
      ({ p2 with score := p2.score + 50 }, pk1)
    else (p, pk)

/-- The collection loop of `update_pickups` over the whole pickup list,
threading the player through `pickupStep` in order. -/
def collectPickups (p : Player) (pks : List Pickup) : Player × List Pickup :=
  match pks with
  | [] => (p, [])
  | pk :: rest =>
    let st := pickupStep p pk
    let tail := collectPickups st.1 rest
    (tail.1, st.2 :: tail.2)

-- ============================================================================
-- Victory check (main.rs 1162-1172) and the Victory confirm (707-720)
-- ============================================================================

/-- Squared distance from the player to the exit (`X`) cell's center.  The
source compares `sqrt(dsq) < 2.0`, equivalently `dsq < 4`. -/
def exitDistSq (w : World) : ℚ :=
  let e := World.find_char w.level 'X'
  (w.player.pos.x - e.1)^2 + (w.player.pos.z - e.2)^2

/-- `check_victory` (main.rs 1162-1172): the state becomes Victory exactly
when no living enemy remains and the player is within 2 units of the exit
cell's center (cursor grab/show are input-device side effects, out of scope). -/
def check_victory (w : World) : World :=
  if w.alive_enemies = 0 then
    if exitDistSq w < 4 then { w with state := GameState.Victory } else w
  else w

/-- The confirm handler of the `Dead | Victory` states in `update` (main.rs
707-720): from Victory below level 5 it resets the per-level kill counter,
loads the next level, and returns to Playing; otherwise it returns to the
menu. -/
def deadVictoryConfirm (w : World) : World :=
  if w.state = GameState.Victory ∧ w.current_level < 5 then
    let w1 := { w with player := { w.player with kills := 0 } }
    let w2 := World.load_level w1 (w1.current_level + 1)
    { w2 with state := GameState.Playing }
  else
    { w with state := GameState.Menu }


-- ============================================================================
-- Concrete worlds used to instantiate the theorems
-- ============================================================================

/-- A Playing world on level 1 with no enemies left, the player standing 5
units from the exit cell center (the exit `X` of level 1 is at (42, 70)). -/
def sampleWorld : World :=
  { player := Player.new 47 70,
    enemies := [], projectiles := [], particles := [], pickups := [],
    level := Level.level_1, current_level := 1, state := GameState.Playing,
    screen_shake := 0, muzzle_flash := 0, hit_marker := 0,
    combo := 0, combo_timer := 0, total_kills := 0 }

/-- A Playing world with three grunts (100 points, 50 health each). -/
def threeGruntWorld : World :=
  { sampleWorld with
    enemies := [Enemy.grunt 10 10, Enemy.grunt 14 10, Enemy.grunt 18 10] }

/-- A Playing world with one grunt 5 units from the origin and the player 5
units from the origin on the other side. -/
def blastWorld : World :=
  { sampleWorld with
    player := Player.new 5 0,
    enemies := [Enemy.grunt (-5) 0] }

-- ============================================================================
-- Theorems
-- ============================================================================

/-- Claim C4: for every weapon, `can_fire(now)` returns true iff the inter-shot
interval `1/fire_rate` has elapsed since `last_shot` AND ammo is nonzero
(positive, or negative meaning infinite); a weapon with `ammo == 0` can never
fire; two `fire()` calls separated by less than `1/fire_rate` seconds are not
both honored; a successful fire records the timestamp and decrements ammo only
when ammo is positive, so infinite-ammo weapons (`ammo = −1`) are never
decremented. -/
theorem weapon_can_fire_spec (w : Weapon) (time t1 t2 : ℚ) :
    (w.can_fire time = true ↔
      (1 / w.fire_rate ≤ time - w.last_shot ∧ (0 < w.ammo ∨ w.ammo < 0))) ∧
    (w.ammo = 0 → w.can_fire time = false) ∧
    ((w.tryFire t1).2 = true → t2 - t1 < 1 / w.fire_rate →
      ((w.tryFire t1).1.tryFire t2).2 = false) ∧
    ((w.tryFire t1).2 = true →
      (w.tryFire t1).1.last_shot = t1 ∧
      (w.tryFire t1).1.ammo = (if 0 < w.ammo then w.ammo - 1 else w.ammo)) ∧
    (w.ammo = -1 → (w.fire time).ammo = -1) := by
  have hiff : ∀ s : ℚ, w.can_fire s = true ↔
      (1 / w.fire_rate ≤ s - w.last_shot ∧ (0 < w.ammo ∨ w.ammo < 0)) := by
    intro s
    simp [Weapon.can_fire, ge_iff_le]
  refine ⟨hiff time, ?_, ?_, ?_, ?_⟩
  · intro h0
    simp [Weapon.can_fire, h0]
  · intro h1 hlt
    have hc : w.can_fire t1 = true := by
      by_contra hc
      simp [Weapon.tryFire, hc] at h1
    have hnot : ¬ ((w.fire t1).can_fire t2 = true) := by
      intro hcf
      simp only [Weapon.can_fire, Weapon.fire, ge_iff_le, Bool.and_eq_true,
        decide_eq_true_eq, one_div] at hcf
      rw [one_div] at hlt
      linarith [hcf.1]
    simp [Weapon.tryFire, hc, hnot]
  · intro h1
    have hc : w.can_fire t1 = true := by
      by_contra hc
      simp [Weapon.tryFire, hc] at h1
    simp only [Weapon.tryFire, hc, if_true]
    exact ⟨rfl, rfl⟩
  · intro hm1
    simp [Weapon.fire, hm1]

/-- Witness for C4: the pistol (fire rate 3) fires at t = 1/3 but a second
shot at t = 1/2 (closer than the 1/3 s interval) is rejected; a shotgun with
0 ammo cannot fire; firing the pistol never decrements its infinite ammo. -/
theorem weapon_can_fire_spec_witness :
    (Weapon.pistol.tryFire (1/3)).2 = true ∧
    ((Weapon.pistol.tryFire (1/3)).1.tryFire (1/2)).2 = false ∧
    ({ Weapon.shotgun with ammo := 0 } : Weapon).can_fire 5 = false ∧
    (Weapon.pistol.fire (1/3)).ammo = -1 := by
  refine ⟨by with_unfolding_all rfl, ?_, ?_, ?_⟩
  · exact (weapon_can_fire_spec Weapon.pistol 0 (1/3) (1/2)).2.2.1
      (by with_unfolding_all rfl) (by norm_num [Weapon.pistol])
  · exact (weapon_can_fire_spec { Weapon.shotgun with ammo := 0 } 5 0 0).2.1 rfl
  · exact (weapon_can_fire_spec Weapon.pistol (1/3) 0 0).2.2.2.2 rfl

/-- Claim C1: when a living enemy attacks the player (horizontal distance below 2.0
and attack cooldown elapsed) with damage `d` while the player has armor
`a > 0`: the amount absorbed is `min d a`, armor decreases by exactly that
amount, and health decreases by `d − 0.7·min d a`, floored at 0. -/
theorem enemy_attack_armor_spec (e : Enemy) (p : Player) (time : ℚ)
    (hdead : e.dead = false)
    (hdist : horizDistSq p.pos e.pos < 4)
    (hcd : e.attack_cd < time - e.last_attack)
    (harmor : 0 < p.armor) :
    (enemyAttack e p time).2.armor = p.armor - min e.damage p.armor ∧
    (enemyAttack e p time).2.health =
      max (p.health - (e.damage - (7/10) * min e.damage p.armor)) 0 ∧
    (enemyAttack e p time).1.last_attack = time := by
  rw [enemyAttack]
  simp only [hdead, Bool.false_eq_true, if_false]
  rw [if_pos ⟨hdist, hcd⟩, if_pos harmor]
  refine ⟨rfl, ?_, rfl⟩
  ring_nf

/-- Witness for C1: a grunt modified to deal 50 damage attacks a player with
40 armor and 100 health standing 1 unit away: armor drops to 0 and health
drops by exactly 22 (to 78), not by 10 and not by 50. -/
theorem enemy_attack_armor_spec_witness :
    (enemyAttack { Enemy.grunt 0 0 with damage := 50 }
        { Player.new 1 0 with armor := 40 } 5).2.armor = 0 ∧
    (enemyAttack { Enemy.grunt 0 0 with damage := 50 }
        { Player.new 1 0 with armor := 40 } 5).2.health = 78 := by
  have h := enemy_attack_armor_spec { Enemy.grunt 0 0 with damage := 50 }
    { Player.new 1 0 with armor := 40 } 5 rfl
    (by norm_num [horizDistSq, Player.new, Enemy.grunt])
    (by norm_num [Enemy.grunt]) (by norm_num [Player.new])
  refine ⟨?_, ?_⟩
  · rw [h.1]
    norm_num [Player.new, Enemy.grunt]
  · rw [h.2.1]
    norm_num [Player.new, Enemy.grunt, MAX_HEALTH, min_def, max_def]

/-- Claim C8: frame displacements are collision-tested and applied per axis, X
first and then Z (the Z test uses the already-resolved X): a blocked X axis
leaves the X coordinate unchanged while the Z move is still tested and
applied, and vice versa, so an entity pressed against a wall slides along the
unblocked perpendicular axis. -/
theorem move_axis_independent (lv : Level) (x z dx dz radius : ℚ) :
    (Level.check_collision lv (x + dx) z radius = true →
      (moveEntity lv x z dx dz radius).1 = x ∧
      (Level.check_collision lv x (z + dz) radius = false →
        (moveEntity lv x z dx dz radius).2 = z + dz) ∧
      (Level.check_collision lv x (z + dz) radius = true →
        (moveEntity lv x z dx dz radius).2 = z)) ∧
    (Level.check_collision lv (x + dx) z radius = false →
      (moveEntity lv x z dx dz radius).1 = x + dx ∧
      (Level.check_collision lv (x + dx) (z + dz) radius = false →
        (moveEntity lv x z dx dz radius).2 = z + dz) ∧
      (Level.check_collision lv (x + dx) (z + dz) radius = true →
        (moveEntity lv x z dx dz radius).2 = z)) := by
  constructor
  · intro hx
    refine ⟨by simp [moveEntity, hx], ?_, ?_⟩
    · intro hz
      simp [moveEntity, hx, hz]
    · intro hz
      simp [moveEntity, hx, hz]
  · intro hx
    refine ⟨by simp [moveEntity, hx], ?_, ?_⟩
    · intro hz
      simp [moveEntity, hx, hz]
    · intro hz
      simp [moveEntity, hx, hz]

/-- Witness for C8: on level 1, a player at (4.4, 6) moving diagonally by
(−0.2, −0.2) into the west wall is blocked on X (stays at 4.4) but still
slides to z = 5.8. -/
theorem move_axis_independent_witness :
    Level.check_collision Level.level_1 (44/10 + (-2/10)) 6 (3/10) = true ∧
    Level.check_collision Level.level_1 (44/10) (6 + (-2/10)) (3/10) = false ∧
    (moveEntity Level.level_1 (44/10) 6 (-2/10) (-2/10) (3/10)).1 = 44/10 ∧
    (moveEntity Level.level_1 (44/10) 6 (-2/10) (-2/10) (3/10)).2 = 6 + (-2/10) := by
  have hx : Level.check_collision Level.level_1 (44/10 + (-2/10)) 6 (3/10) = true := by
    with_unfolding_all rfl
  have hz : Level.check_collision Level.level_1 (44/10) (6 + (-2/10)) (3/10) = false := by
    with_unfolding_all rfl
  have h := (move_axis_independent Level.level_1 (44/10) 6 (-2/10) (-2/10) (3/10)).1 hx
  exact ⟨hx, hz, h.1, h.2.1 hz⟩

/-- Claim C5: from Playing, `check_victory` switches the state to Victory exactly
when no living enemy remains AND the player is within 2 units of the exit
cell's center; with all enemies dead but the player out of range (e.g. 5
units away) the world is left entirely unchanged, still Playing. -/
theorem victory_condition (w : World) (hw : w.state = GameState.Playing) :
    ((check_victory w).state = GameState.Victory ↔
      (World.alive_enemies w = 0 ∧ exitDistSq w < 4)) ∧
    (World.alive_enemies w = 0 → 4 ≤ exitDistSq w → check_victory w = w) := by
  constructor
  · constructor
    · intro hv
      by_cases h0 : World.alive_enemies w = 0
      · by_cases hd : exitDistSq w < 4
        · exact ⟨h0, hd⟩
        · rw [check_victory, if_pos h0, if_neg hd, hw] at hv
          exact absurd hv (by decide)
      · rw [check_victory, if_neg h0, hw] at hv
        exact absurd hv (by decide)
    · rintro ⟨h0, hd⟩
      rw [check_victory, if_pos h0, if_pos hd]
  · intro h0 hd
    rw [check_victory, if_pos h0, if_neg (not_lt.mpr hd)]

/-- Witness for C5: in a Playing world on level 1 with every enemy dead and
the player exactly 5 units from the exit center (42, 70), `check_victory`
leaves the world unchanged — killing the last enemy far from the exit does
not trigger Victory. -/
theorem victory_condition_witness :
    exitDistSq sampleWorld = 25 ∧
    check_victory sampleWorld = sampleWorld ∧
    (check_victory sampleWorld).state = GameState.Playing := by
  have hd : exitDistSq sampleWorld = 25 := by with_unfolding_all rfl
  have h := (victory_condition sampleWorld rfl).2 (by with_unfolding_all rfl)
    (by rw [hd]; norm_num)
  exact ⟨hd, h, by rw [h]; rfl⟩

/-- A list of zeros yields zero for any index under `getD` with default 0. -/
theorem getD_zero_of_all_zero (l : List ℚ) (h : ∀ v ∈ l, v = 0) (n : ℕ) :
    l.getD n 0 = 0 := by
  induction l generalizing n with
  | nil => simp
  | cons a t ih =>
    cases n with
    | zero => simpa using h a (by simp)
    | succ m =>
      simp only [List.getD_cons_succ]
      exact ih (fun v hv => h v (by simp [hv])) m

/-- If every row of a height map starts with 0, then indexing any row (or the
empty default row) at column 0 yields 0. -/
theorem getD_col_zero (fh : List (List ℚ)) (h : ∀ row ∈ fh, row.getD 0 0 = 0)
    (n : ℕ) : (fh.getD n []).getD 0 0 = 0 := by
  induction fh generalizing n with
  | nil => simp
  | cons r t ih =>
    cases n with
    | zero => simpa using h r (by simp)
    | succ m =>
      simp only [List.getD_cons_succ]
      exact ih (fun row hr => h row (by simp [hr])) m

/-- For a level whose column 0 and row 0 heights are all zero,
`get_floor_height` returns 0 at every position that is out of range or has a
negative coordinate (negative coordinates saturate to cell 0). -/
theorem get_floor_height_zero (lv : Level)
    (hcol : ∀ row ∈ lv.floor_heights, row.getD 0 0 = 0)
    (hrow : ∀ v ∈ lv.floor_heights.getD 0 [], v = 0)
    (x z : ℚ)
    (h : x < 0 ∨ z < 0 ∨
      ¬(ratToUsize (z / CELL_SIZE) < lv.height ∧ ratToUsize (x / CELL_SIZE) < lv.width)) :
    Level.get_floor_height lv x z = 0 := by
  simp only [Level.get_floor_height]
  split_ifs with hg
  · rcases h with hx | hz | hng
    · have hx0 : ratToUsize (x / CELL_SIZE) = 0 := by
        rw [ratToUsize, if_pos (div_neg_of_neg_of_pos hx (by norm_num [CELL_SIZE]))]
      rw [hx0]
      exact getD_col_zero _ hcol _
    · have hz0 : ratToUsize (z / CELL_SIZE) = 0 := by
        rw [ratToUsize, if_pos (div_neg_of_neg_of_pos hz (by norm_num [CELL_SIZE]))]
      rw [hz0]
      exact getD_zero_of_all_zero _ hrow _
    · exact absurd hg hng
  · rfl

/-- Claim C9: `is_wall` treats every out-of-bounds grid coordinate as solid, for
any level; and on each of the game's five levels `get_floor_height` returns
0.0 for every world position whose cell is out of range of the grid,
including positions with negative x or z (which Rust's saturating
float-to-usize cast sends to cell 0, whose floor height is 0 on all five
levels). -/
theorem grid_bounds_spec :
    (∀ (lv : Level) (x y : ℤ),
      (x < 0 ∨ y < 0 ∨ (lv.width : ℤ) ≤ x ∨ (lv.height : ℤ) ≤ y) →
      Level.is_wall lv x y = true) ∧
    (∀ lv : Level,
      (lv = Level.level_1 ∨ lv = Level.level_2 ∨ lv = Level.level_3 ∨
       lv = Level.level_4 ∨ lv = Level.level_5) →
      ∀ x z : ℚ,
        (x < 0 ∨ z < 0 ∨
          ¬(ratToUsize (z / CELL_SIZE) < lv.height ∧
            ratToUsize (x / CELL_SIZE) < lv.width)) →
        Level.get_floor_height lv x z = 0) := by
  constructor
  · intro lv x y h
    rw [Level.is_wall]
    split_ifs with hc
    · rfl
    · exfalso
      simp only [Bool.or_eq_true, decide_eq_true_eq, not_or, not_lt, ge_iff_le,
        not_le] at hc
      omega
  · intro lv hlv x z h
    refine get_floor_height_zero lv ?_ ?_ x z h
    · rcases hlv with h1 | h1 | h1 | h1 | h1 <;> subst h1 <;> with_unfolding_all decide
    · rcases hlv with h1 | h1 | h1 | h1 | h1 <;> subst h1 <;> with_unfolding_all decide

/-- Witness for C9: the cell (−1, 0) is solid on level 1; on level 5 (whose
interior has nonzero floor heights) a position with negative x yields floor
height 0, and a far out-of-range position on level 1 yields 0. -/
theorem grid_bounds_spec_witness :
    Level.is_wall Level.level_1 (-1) 0 = true ∧
    Level.get_floor_height Level.level_5 (-1) 10 = 0 ∧
    Level.get_floor_height Level.level_1 1000 6 = 0 := by
  refine ⟨grid_bounds_spec.1 Level.level_1 (-1) 0 (Or.inl (by norm_num)), ?_, ?_⟩
  · exact grid_bounds_spec.2 Level.level_5
      (Or.inr (Or.inr (Or.inr (Or.inr rfl)))) (-1) 10 (Or.inl (by norm_num))
  · exact grid_bounds_spec.2 Level.level_1 (Or.inl rfl) 1000 6
      (Or.inr (Or.inr (by with_unfolding_all decide)))

/-- A pickup whose collected flag is set is skipped: `pickupStep` leaves both
the player and the pickup unchanged, regardless of proximity. -/
theorem pickupStep_collected (p : Player) (pk : Pickup) (h : pk.collected = true) :
    pickupStep p pk = (p, pk) := by
  simp [pickupStep, h]

/-- Claim C6: a pickup's effect is applied at most once per level load: the first
collection within 1.5 units sets the collected flag (and awards the flat +50
score), an already-collected pickup is skipped by `pickupStep` unconditionally
and passes through the whole collection loop unchanged, and a fully collected
pickup list leaves the player state untouched — no gain is ever reapplied. -/
theorem pickup_once_spec :
    (∀ (p : Player) (pk : Pickup), pk.collected = true → pickupStep p pk = (p, pk)) ∧
    (∀ (p : Player) (pk : Pickup), pk.collected = false →
      (p.pos.x - pk.pos.x) * (p.pos.x - pk.pos.x) +
        (p.pos.z - pk.pos.z) * (p.pos.z - pk.pos.z) < 9/4 →
      (pickupStep p pk).2.collected = true ∧
      (pickupStep p pk).1.score = p.score + 50) ∧
    (∀ (p : Player) (pks : List Pickup) (i : ℕ) (pk : Pickup),
      pks.get? i = some pk → pk.collected = true →
      (collectPickups p pks).2.get? i = some pk) ∧
    (∀ (p : Player) (pks : List Pickup),
      (∀ pk ∈ pks, pk.collected = true) → collectPickups p pks = (p, pks)) := by
  refine ⟨pickupStep_collected, ?_, ?_, ?_⟩
  · intro p pk hc hd
    rw [pickupStep]
    simp only [hc, Bool.false_eq_true, if_false]
    rw [if_pos hd]
    constructor
    · rfl
    · cases htype : pk.pickup_type <;> simp [htype]
  · intro p pks
    induction pks generalizing p with
    | nil => intro i pk h _; simp at h
    | cons hd tl ih =>
      intro i pk h hcoll
      cases i with
      | zero =>
        simp only [List.get?_cons_zero, Option.some.injEq] at h
        subst h
        simp [collectPickups, pickupStep_collected p hd hcoll]
      | succ m =>
        simp only [List.get?_cons_succ] at h
        simp only [collectPickups, List.get?_cons_succ]
        exact ih (pickupStep p hd).1 m pk h hcoll
  · intro p pks
    induction pks generalizing p with
    | nil => intro h; rfl
    | cons hd tl ih =>
      intro h
      simp only [collectPickups, pickupStep_collected p hd (h hd (by simp))]
      simp [ih p (fun pk hpk => h pk (by simp [hpk]))]

/-- Witness for C6: a collected health pickup at the player's feet is not
re-collected (player and pickup unchanged); an uncollected armor pickup 1
unit away is collected and awards 50 score; a single-element collected list
passes through the loop unchanged. -/
theorem pickup_once_spec_witness :
    pickupStep (Player.new 0 0) { Pickup.new 0 0 .Health with collected := true } =
      (Player.new 0 0, { Pickup.new 0 0 .Health with collected := true }) ∧
    (pickupStep (Player.new 0 0) (Pickup.new 1 0 .Armor)).2.collected = true ∧
    (pickupStep (Player.new 0 0) (Pickup.new 1 0 .Armor)).1.score =
      (Player.new 0 0).score + 50 ∧
    collectPickups (Player.new 0 0) [{ Pickup.new 0 0 .Health with collected := true }] =
      (Player.new 0 0, [{ Pickup.new 0 0 .Health with collected := true }]) := by
  have h2 := pickup_once_spec.2.1 (Player.new 0 0) (Pickup.new 1 0 .Armor) rfl
    (by norm_num [Player.new, Pickup.new])
  refine ⟨pickup_once_spec.1 _ _ rfl, h2.1, h2.2, ?_⟩
  exact pickup_once_spec.2.2.2 _ _ (by simp)

/-- Closed form of the iterated combo decay with nonnegative frame times: the
timer ends at `t − sum`, and the combo counter survives exactly when no time
step brought the timer to 0 or below, which for nonnegative steps means the
total elapsed time stayed below the initial timer (or no frame ran at all). -/
theorem comboDecayList_spec (l : List ℚ) :
    ∀ (c : ℤ) (t : ℚ), (∀ x ∈ l, 0 ≤ x) →
      comboDecayList c t l = (if l ≠ [] ∧ t - l.sum ≤ 0 then 0 else c, t - l.sum) := by
  induction l with
  | nil => intro c t _; simp [comboDecayList]
  | cons dt rest ih =>
    intro c t h
    have hrest : ∀ x ∈ rest, 0 ≤ x := fun x hx => h x (by simp [hx])
    have hsum : 0 ≤ rest.sum := List.sum_nonneg hrest
    rw [comboDecayList]
    rw [ih _ _ hrest]
    simp only [comboFrame, List.sum_cons, ne_eq, List.cons_ne_nil, not_false_eq_true,
      true_and, Prod.mk.injEq]
    constructor
    · rw [show t - (dt + rest.sum) = t - dt - rest.sum from by ring]
      by_cases hr : rest = ([] : List ℚ)
      · subst hr
        simp
      · simp only [hr, ne_eq, not_false_eq_true, true_and]
        split_ifs with h1 h2 h3 <;> first | rfl | (exfalso; linarith)
    · ring

/-- Claim C2: a hit-scan kill increments the combo counter first, awards the
enemy's point value plus `50 ×` the incremented counter, and resets the
2-second decay timer; frames totalling less than 2 seconds leave the combo
counter untouched, while 2 or more elapsed seconds reset it to 0; in
particular three kills of 100-point grunts, each within 2 seconds of the
previous, award 150, 200 and 250 points (scores 150, 350, 600). -/
theorem combo_scoring_spec :
    (∀ (w : World) (idx : ℕ) (e : Enemy) (damage now : ℚ),
      w.enemies.get? idx = some e → e.dead = false → e.health - damage ≤ 0 →
      (applyRaycastHit w idx damage now).player.score =
        w.player.score + e.points + (w.combo + 1) * 50 ∧
      (applyRaycastHit w idx damage now).combo = w.combo + 1 ∧
      (applyRaycastHit w idx damage now).combo_timer = 2) ∧
    (∀ (c : ℤ) (l : List ℚ), (∀ x ∈ l, 0 ≤ x) → l.sum < 2 →
      comboDecayList c 2 l = (c, 2 - l.sum)) ∧
    (∀ (c : ℤ) (l : List ℚ), (∀ x ∈ l, 0 ≤ x) → 2 ≤ l.sum →
      (comboDecayList c 2 l).1 = 0) ∧
    ((applyRaycastHit threeGruntWorld 0 50 0).player.score = 150 ∧
     (applyRaycastHit (comboTick (applyRaycastHit threeGruntWorld 0 50 0) 1)
        1 50 1).player.score = 350 ∧
     (applyRaycastHit (comboTick (applyRaycastHit
        (comboTick (applyRaycastHit threeGruntWorld 0 50 0) 1) 1 50 1) 1)
        2 50 2).player.score = 600) := by
  refine ⟨?_, ?_, ?_, ?_, ?_, ?_⟩
  · intro w idx e damage now hget hdead hkill
    simp only [applyRaycastHit, hget]
    rw [if_pos (by simpa using hkill)]
    exact ⟨rfl, rfl, rfl⟩
  · intro c l hnn hlt
    rw [comboDecayList_spec l c 2 hnn]
    have : ¬(l ≠ [] ∧ 2 - l.sum ≤ 0) := by
      rintro ⟨-, hle⟩
      linarith
    rw [if_neg this]
  · intro c l hnn hge
    cases l with
    | nil =>
      simp only [List.sum_nil] at hge
      linarith
    | cons dt rest =>
      rw [comboDecayList_spec _ c 2 hnn]
      rw [if_pos ⟨List.cons_ne_nil dt rest, by linarith⟩]
  · with_unfolding_all rfl
  · with_unfolding_all rfl
  · with_unfolding_all rfl

/-- Witness for C2: the first kill in `threeGruntWorld` sets combo 1 and
timer 2; a 1-second decay from timer 2 keeps combo 3 at timer 1, while a
2-second decay resets combo to 0. -/
theorem combo_scoring_spec_witness :
    (applyRaycastHit threeGruntWorld 0 50 0).combo = 1 ∧
    (applyRaycastHit threeGruntWorld 0 50 0).combo_timer = 2 ∧
    comboDecayList 3 2 [1] = (3, 1) ∧
    (comboDecayList 3 2 [2]).1 = 0 := by
  have h1 := combo_scoring_spec.1 threeGruntWorld 0 (Enemy.grunt 10 10) 50 0
    (by with_unfolding_all rfl) rfl (by norm_num [Enemy.grunt])
  have h2 := combo_scoring_spec.2.1 3 [1] (by norm_num) (by norm_num)
  have h3 := combo_scoring_spec.2.2.1 3 [2] (by norm_num) (by norm_num)
  refine ⟨?_, h1.2.2, ?_, h3⟩
  · rw [h1.2.1]
    with_unfolding_all rfl
  · rw [h2]
    norm_num

/-- Summing `if p e then f e else 0` over a list equals summing `f` over the
filtered list. -/
theorem sum_map_ite_filter (l : List Enemy) (p : Enemy → Bool) (f : Enemy → ℤ) :
    (l.map (fun e => if p e then f e else 0)).sum = ((l.filter p).map f).sum := by
  induction l with
  | nil => rfl
  | cons a t ih =>
    by_cases h : p a <;> simp [List.filter_cons, h, ih]

/-- Claim C3: an explosion with base damage D at `pos` deals `D × (1 − d/10)` to
every living enemy at distance `d < 10` (marking it dead, stamped with the
current time, when health drops to 0 or below), deals
`D × (1 − dp/10) × 0.3` to the player at distance `dp < 10` floored at 0, and
adds to the score exactly the flat point values of the enemies it kills — the
combo counter and its timer are untouched. -/
theorem explosion_falloff_spec (len : Vec3Q → ℚ) (fx : List Particle) (w : World)
    (pos : Vec3Q) (damage now : ℚ) (i : ℕ) (e : Enemy) (d dp : ℚ)
    (he : w.enemies.get? i = some e) (halive : e.dead = false)
    (hd : len (vsub pos e.pos) = d) (hd10 : d < 10)
    (hdp : len (vsub pos w.player.pos) = dp) (hdp10 : dp < 10) :
    (explode len fx w pos damage now).enemies.get? i = some
      (if e.health - damage * (1 - d / 10) ≤ 0 then
        { e with health := e.health - damage * (1 - d / 10),
                 dead := true, death_time := now }
      else { e with health := e.health - damage * (1 - d / 10) }) ∧
    (explode len fx w pos damage now).player.health =
      max (w.player.health - damage * (1 - dp / 10) * (3/10)) 0 ∧
    (explode len fx w pos damage now).player.score =
      w.player.score +
        ((w.enemies.filter (explodeKills len pos damage)).map Enemy.points).sum ∧
    (explode len fx w pos damage now).combo = w.combo ∧
    (explode len fx w pos damage now).combo_timer = w.combo_timer := by
  refine ⟨?_, ?_, ?_, rfl, rfl⟩
  · simp only [explode, List.get?_map, he, Option.map_some']
    congr 1
    rw [explodeEnemy]
    simp only [halive, Bool.false_eq_true, if_false, hd]
    rw [if_pos hd10]
  · simp only [explode, hdp]
    rw [if_pos hdp10]
  · have hs := sum_map_ite_filter w.enemies (explodeKills len pos damage) Enemy.points
    simp only [explode]
    split_ifs <;> simp [hs]

/-- Witness for C3: a 250-damage explosion at the origin with both the grunt
and the player at distance 5 applies 125 damage to the grunt (health 50 →
−75, dead, death time stamped), 37.5 to the player (health 100 → 62.5), and
awards the grunt's flat 100 points. -/
theorem explosion_falloff_spec_witness :
    (explode (fun v => 5) [] blastWorld ⟨0, 0, 0⟩ 250 7).enemies.get? 0 =
      some { Enemy.grunt (-5) 0 with health := -75, dead := true, death_time := 7 } ∧
    (explode (fun v => 5) [] blastWorld ⟨0, 0, 0⟩ 250 7).player.health = 125/2 ∧
    (explode (fun v => 5) [] blastWorld ⟨0, 0, 0⟩ 250 7).player.score =
      blastWorld.player.score + 100 ∧
    (explode (fun v => 5) [] blastWorld ⟨0, 0, 0⟩ 250 7).combo = blastWorld.combo := by
  have h := explosion_falloff_spec (fun v => 5) [] blastWorld ⟨0, 0, 0⟩ 250 7 0
    (Enemy.grunt (-5) 0) 5 5 (by with_unfolding_all rfl) rfl rfl (by norm_num) rfl
    (by norm_num)
  refine ⟨?_, ?_, ?_, h.2.2.2.1⟩
  · rw [h.1]
    with_unfolding_all rfl
  · rw [h.2.1]
    with_unfolding_all rfl
  · rw [h.2.2.1]
    with_unfolding_all rfl

/-- Claim C10: an explosion never touches the per-level kill counter, the
total-kills counter, the combo counter or the combo timer (nor the state,
pickups or projectiles); an enemy it kills only has its health, dead flag and
death timestamp changed, and the score gains exactly the flat point values of
the killed enemies.  By contrast, a hit-scan kill advances both kill counters
and the combo counter. -/
theorem splash_kill_frame_effect (len : Vec3Q → ℚ) (fx : List Particle) (w : World)
    (pos : Vec3Q) (damage now : ℚ) :
    (explode len fx w pos damage now).player.kills = w.player.kills ∧
    (explode len fx w pos damage now).total_kills = w.total_kills ∧
    (explode len fx w pos damage now).combo = w.combo ∧
    (explode len fx w pos damage now).combo_timer = w.combo_timer ∧
    (explode len fx w pos damage now).state = w.state ∧
    (explode len fx w pos damage now).pickups = w.pickups ∧
    (explode len fx w pos damage now).projectiles = w.projectiles ∧
    (∀ (i : ℕ) (e : Enemy), w.enemies.get? i = some e →
      explodeKills len pos damage e = true →
      (explode len fx w pos damage now).enemies.get? i = some
        { e with health := e.health - damage * (1 - len (vsub pos e.pos) / 10),
                 dead := true, death_time := now }) ∧
    ((explode len fx w pos damage now).player.score = w.player.score +
      ((w.enemies.filter (explodeKills len pos damage)).map Enemy.points).sum) ∧
    (∀ (w2 : World) (idx : ℕ) (e : Enemy) (damage2 : ℚ),
      w2.enemies.get? idx = some e → e.health - damage2 ≤ 0 →
      (applyRaycastHit w2 idx damage2 now).player.kills = w2.player.kills + 1 ∧
      (applyRaycastHit w2 idx damage2 now).total_kills = w2.total_kills + 1 ∧
      (applyRaycastHit w2 idx damage2 now).combo = w2.combo + 1) := by
  have hkills : (explode len fx w pos damage now).player.kills = w.player.kills := by
    simp only [explode]
    split_ifs <;> rfl
  refine ⟨hkills, rfl, rfl, rfl, rfl, rfl, rfl, ?_, ?_, ?_⟩
  · intro i e he hk
    simp only [explodeKills, Bool.and_eq_true, Bool.not_eq_true',
      decide_eq_true_eq] at hk
    obtain ⟨hdead, hlt, hle⟩ := hk
    simp only [explode, List.get?_map, he, Option.map_some']
    congr 1
    rw [explodeEnemy]
    simp only [hdead, Bool.false_eq_true, if_false]
    rw [if_pos hlt, if_pos hle]
  · have hs := sum_map_ite_filter w.enemies (explodeKills len pos damage) Enemy.points
    simp only [explode]
    split_ifs <;> simp [hs]
  · intro w2 idx e damage2 hget hkill
    simp only [applyRaycastHit, hget]
    rw [if_pos (by simpa using hkill)]
    exact ⟨rfl, rfl, rfl⟩

/-- Witness for C10: the explosion of the C3 scenario (one grunt killed by
splash) leaves kills, total kills, combo and combo timer at their old values
while the dead flag, death time and flat score do change; a hit-scan kill on
`threeGruntWorld` advances the kill counters and combo. -/
theorem splash_kill_frame_effect_witness :
    (explode (fun v => 5) [] blastWorld ⟨0, 0, 0⟩ 250 9).player.kills =
      blastWorld.player.kills ∧
    (explode (fun v => 5) [] blastWorld ⟨0, 0, 0⟩ 250 9).total_kills =
      blastWorld.total_kills ∧
    (explode (fun v => 5) [] blastWorld ⟨0, 0, 0⟩ 250 9).combo = blastWorld.combo ∧
    (explode (fun v => 5) [] blastWorld ⟨0, 0, 0⟩ 250 9).enemies.get? 0 =
      some { Enemy.grunt (-5) 0 with health := -75, dead := true, death_time := 9 } ∧
    (applyRaycastHit threeGruntWorld 2 50 9).player.kills =
      threeGruntWorld.player.kills + 1 ∧
    (applyRaycastHit threeGruntWorld 2 50 9).total_kills =
      threeGruntWorld.total_kills + 1 := by
  have h := splash_kill_frame_effect (fun v => 5) [] blastWorld ⟨0, 0, 0⟩ 250 9
  have h8 := h.2.2.2.2.2.2.2.1 0 (Enemy.grunt (-5) 0) (by with_unfolding_all rfl)
    (by with_unfolding_all rfl)
  have h10 := h.2.2.2.2.2.2.2.2.2 threeGruntWorld 2 (Enemy.grunt 18 10) 50
    (by with_unfolding_all rfl) (by norm_num [Enemy.grunt])
  refine ⟨h.1, h.2.1, h.2.2.1, ?_, h10.1, h10.2.1⟩
  rw [h8]
  with_unfolding_all rfl

/-- Claim C7: confirming from Victory with current level below 5 empties the
projectile and particle collections, moves the player to the next level's
start marker with yaw and pitch 0, resets the per-level kill counter, leaves
score, total kills, weapons, armor, health and both boost timers unchanged,
and returns the state to Playing on the next level. -/
theorem level_advance_spec (w : World) (hv : w.state = GameState.Victory)
    (hl : w.current_level < 5) :
    (deadVictoryConfirm w).projectiles = [] ∧
    (deadVictoryConfirm w).particles = [] ∧
    (deadVictoryConfirm w).player.pos =
      ⟨(World.find_char (World.levelOf (w.current_level + 1)) 'P').1, PLAYER_HEIGHT,
       (World.find_char (World.levelOf (w.current_level + 1)) 'P').2⟩ ∧
    (deadVictoryConfirm w).player.yaw = 0 ∧
    (deadVictoryConfirm w).player.pitch = 0 ∧
    (deadVictoryConfirm w).player.kills = 0 ∧
    (deadVictoryConfirm w).player.score = w.player.score ∧
    (deadVictoryConfirm w).total_kills = w.total_kills ∧
    (deadVictoryConfirm w).player.weapons = w.player.weapons ∧
    (deadVictoryConfirm w).player.armor = w.player.armor ∧
    (deadVictoryConfirm w).player.health = w.player.health ∧
    (deadVictoryConfirm w).player.speed_boost = w.player.speed_boost ∧
    (deadVictoryConfirm w).player.damage_boost = w.player.damage_boost ∧
    (deadVictoryConfirm w).state = GameState.Playing ∧
    (deadVictoryConfirm w).current_level = w.current_level + 1 := by
  rw [deadVictoryConfirm, if_pos ⟨hv, hl⟩]
  exact ⟨rfl, rfl, rfl, rfl, rfl, rfl, rfl, rfl, rfl, rfl, rfl, rfl, rfl, rfl, rfl⟩

/-- Witness for C7: confirming from Victory on level 1 puts the player at
level 2's start marker (6, 74) facing yaw 0, empties projectiles, keeps score
0 and health 100, and plays on at level 2. -/
theorem level_advance_spec_witness :
    (deadVictoryConfirm { sampleWorld with state := GameState.Victory }).state =
      GameState.Playing ∧
    (deadVictoryConfirm { sampleWorld with state := GameState.Victory }).current_level = 2 ∧
    (deadVictoryConfirm { sampleWorld with state := GameState.Victory }).player.pos =
      ⟨6, PLAYER_HEIGHT, 74⟩ ∧
    (deadVictoryConfirm { sampleWorld with state := GameState.Victory }).projectiles = [] ∧
    (deadVictoryConfirm { sampleWorld with state := GameState.Victory }).player.kills = 0 ∧
    (deadVictoryConfirm { sampleWorld with state := GameState.Victory }).player.health =
      100 := by
  have h := level_advance_spec { sampleWorld with state := GameState.Victory } rfl
    (by norm_num [sampleWorld])
  refine ⟨h.2.2.2.2.2.2.2.2.2.2.2.2.2.1, ?_, ?_, h.1, h.2.2.2.2.2.1, ?_⟩
  · rw [h.2.2.2.2.2.2.2.2.2.2.2.2.2.2]
    with_unfolding_all rfl
  · rw [h.2.2.1]
    with_unfolding_all rfl
  · rw [h.2.2.2.2.2.2.2.2.2.2.1]
    with_unfolding_all rfl
